import Mathlib

/-!
# Verification of the AEX DCF valuation engine (`dcf_model.py`)

This file is a shallow embedding, in Lean 4, of the core valuation logic of
`DCFModel` in `dcf_model.py`:

* `get_financial_data`  — the fundamentals extractor (lines 141-252),
* `get_wacc`            — the discount-rate estimator (lines 254-293),
* `calculate_fcf_based_value`, `calculate_earnings_based_value`,
  `calculate_ptb_value` — the three valuation methods (lines 418-590),
* `calculate_dcf`       — the per-company pipeline: guard, method selector,
  P/E fallback, discount clamp and result assembly (lines 295-416),
* `generate_dcf_report` — the batch report driver (lines 592-631).

Modelling conventions:

* Python floats are modelled as exact rationals (`ℚ`); a Python value that
  may be `None` (a missing `info` key, a missing statement line item) is an
  `Option`.
* A Python exception that the source catches and converts to `None`
  (`ZeroDivisionError` on a zero denominator, `TypeError` on arithmetic with
  `None`, `IndexError` on `projected_cash_flows[-1]` for an empty list) is
  modelled as an explicit `none`-returning branch at the same place.
* The floating-point power `ratio ** (1 / years)` used by the earnings-CAGR
  step has no rational counterpart; the embedding takes it as an explicit
  function parameter `rt : ℚ → ℕ → ℚ` standing for that operation, and every
  theorem about the extractor quantifies over `rt`.
* `pandas` statement frames are modelled by a validity flag (the source's
  `isinstance(df, DataFrame) and not df.empty` check) plus one optional
  `List ℚ` per line-item row (the row's values after `dropna()`, most recent
  first); a row that is absent from the frame's index is `none`.
-/

namespace AexDCF

set_option maxRecDepth 16384

/-- The model parameters that reach the valuation methods: `default_params`
merged with `custom_params` (lines 43-53 and 308-311 of the source).
`default_wacc` is not included because `get_wacc` reads the unmerged
`self.default_params['default_wacc']`, a constant. -/
structure Params where
  growth_years : ℕ
  default_growth_rate : ℚ
  default_terminal_growth : ℚ
deriving Repr, DecidableEq

/-- The unmerged defaults of `DCFModel.__init__`. -/
def defaultParams : Params :=
  { growth_years := 5, default_growth_rate := 3/100, default_terminal_growth := 25/1000 }

/-- `self.default_params['default_wacc']`, read directly by `get_wacc`. -/
def defaultWacc : ℚ := 95/1000

/-- `self.default_params['default_growth_rate']`, read directly by
`get_financial_data` (line 246). -/
def defaultGrowthRate : ℚ := 3/100

/-- The `ticker.info` summary fields the valuation engine reads, plus the
result of the sector classification `is_financial_stock` (which is a pure
function of `info` fields and the ticker symbol, out of scope here). An
absent key is `none`. -/
structure TickerInfo where
  shortName : Option String
  currentPrice : Option ℚ
  sharesOutstanding : Option ℚ
  beta : Option ℚ
  trailingEps : Option ℚ
  totalCash : Option ℚ
  totalDebt : Option ℚ
  returnOnEquity : Option ℚ
  is_financial : Bool
deriving Repr, DecidableEq

/-- The statement tables read by `get_financial_data`. Each `_ok` flag is the
source's `isinstance(df, pd.DataFrame) and not df.empty` check; each row
field is the named line item's values after `dropna()` (most recent first),
`none` when the name is not in the frame's index. -/
structure RawStatements where
  cashflow_ok : Bool
  fcf_row : Option (List ℚ)
  income_ok : Bool
  netIncome_row : Option (List ℚ)
  netIncomeCommon_row : Option (List ℚ)
  balance_ok : Bool
  totalStockholderEquity_row : Option (List ℚ)
  stockholdersEquity_row : Option (List ℚ)
  commonStockEquity_row : Option (List ℚ)
  info_freeCashflow : Option ℚ
  info_netIncomeToCommon : Option ℚ
  info_totalRevenue : Option ℚ
  info_revenueGrowth : Option ℚ
deriving Repr, DecidableEq

/-- The `data` dict built by `get_financial_data` (lines 151-159). -/
structure FinData where
  free_cash_flow : Option ℚ
  earnings : Option ℚ
  book_value : Option ℚ
  revenue : Option ℚ
  growth_rate : Option ℚ
  is_financial : Bool
  confidence : ℚ
deriving Repr, DecidableEq

/-- Python truthiness of an optional number: `None` and `0` are falsy
(`if not current_price`, line 331). -/
def truthy : Option ℚ → Bool
  | none => false
  | some v => v != 0

/-- Python `x or d` for an optional number `x`: `None` and `0` both fall back
to `d` (`financial_data['growth_rate'] or params['default_growth_rate']`,
lines 436 and 501). -/
def pyOr (x : Option ℚ) (d : ℚ) : ℚ :=
  match x with
  | none => d
  | some v => if v = 0 then d else v

/-- `min(max(x, -0.05), 0.20)`: the growth-rate clamp (lines 218 and 233). -/
def clampGrowth (x : ℚ) : ℚ := min (max x (-(5/100))) (1/5)

/-- First row of the given list that is present in the frame's index and has
a non-empty `dropna()` series; yields its most recent value. Models the
`for ... in [...]` loops with `break` on first hit (lines 182-188, 205-210). -/
def rowFirst : List (Option (List ℚ)) → Option ℚ
  | [] => none
  | some (x :: _) :: _ => some x
  | _ :: rest => rowFirst rest

/-- The free cash flow extracted in step 1 of `get_financial_data`
(lines 168-175): the most recent value of the `'Free Cash Flow'` row when
the cash-flow frame is valid and non-empty, else nothing. -/
def extractedFcf (st : RawStatements) : Option ℚ :=
  if st.cashflow_ok then st.fcf_row.bind List.head? else none

/-- Whether the net-income branch at line 178 runs: it is nested inside the
`cashflow` validity check, and its condition is
`is_financial or fcf is None or fcf < 0` (strictly negative, not `<= 0`). -/
def incomeBranch (is_financial : Bool) (st : RawStatements) : Bool :=
  st.cashflow_ok &&
    (is_financial || (extractedFcf st).isNone ||
      (match extractedFcf st with | some f => f < 0 | none => false))

/-- The income-statement net-income lookup of lines 180-188: tries
`'Net Income'` then `'Net Income Common Stockholders'`, first present and
non-empty row wins. -/
def incomeLookup (st : RawStatements) : Option ℚ :=
  if st.income_ok then rowFirst [st.netIncome_row, st.netIncomeCommon_row] else none

/-- The earnings-CAGR step of lines 223-240: the first income row that is
present with at least 3 periods and positive oldest and newest values yields
`clamp (rt (newest / oldest) years - 1)` where `years = len - 1` and
`rt ratio years` stands for the floating-point `ratio ** (1 / years)`;
a row failing any of the checks does not `break` and the next row is tried. -/
def cagrStep (rt : ℚ → ℕ → ℚ) : List (Option (List ℚ)) → Option ℚ
  | [] => none
  | some xs :: rest =>
      if 3 ≤ xs.length ∧ 0 < xs.getLastD 0 ∧ 0 < xs.headD 0 then
        some (clampGrowth (rt (xs.headD 0 / xs.getLastD 0) (xs.length - 1) - 1))
      else cagrStep rt rest
  | none :: rest => cagrStep rt rest

/-- `DCFModel.get_financial_data` (lines 141-252). `rt` abstracts the
floating-point power of the CAGR step (see `cagrStep`).

Faithfulness note on the CAGR step: in the source, the local variable
`income_stmt` is bound (line 180) only inside the branch guarded by
`incomeBranch`; when that branch did not run, the reference to `income_stmt`
at line 222 raises `NameError`, which the `except` at line 241 swallows
before any growth-rate update. The embedding therefore runs the CAGR step
only when `incomeBranch` holds (and the income frame is valid). -/
def get_financial_data (rt : ℚ → ℕ → ℚ) (is_financial : Bool) (st : RawStatements) :
    FinData :=
  -- Step 1: most recent 'Free Cash Flow' (confidence 0.7 when found).
  let fcf := extractedFcf st
  let conf1 : ℚ := if fcf.isSome then 7/10 else 0
  -- Step 2: income-statement net income (confidence 0.8 when found).
  let earnings0 := if incomeBranch is_financial st then incomeLookup st else none
  let conf2 : ℚ := if earnings0.isSome then 8/10 else conf1
  -- Step 3: `info` fallback when both are still missing (confidence 0.6).
  let useFallback := fcf.isNone && earnings0.isNone
  let fcf1 := if useFallback then st.info_freeCashflow else fcf
  let earnings1 := if useFallback then st.info_netIncomeToCommon else earnings0
  let conf3 : ℚ :=
    if useFallback then
      if st.info_netIncomeToCommon.isSome then 6/10
      else if st.info_freeCashflow.isSome then 6/10
      else conf2
    else conf2
  -- Step 4: book value from the balance sheet, first equity row variant wins.
  let book :=
    if st.balance_ok then
      rowFirst [st.totalStockholderEquity_row, st.stockholdersEquity_row,
        st.commonStockEquity_row]
    else none
  -- Step 6: revenue growth from `info`, clamped.
  let g0 := st.info_revenueGrowth.map clampGrowth
  -- Step 7: earnings CAGR, only reachable when `income_stmt` was bound.
  let g1 :=
    if incomeBranch is_financial st && st.income_ok then
      match cagrStep rt [st.netIncome_row, st.netIncomeCommon_row] with
      | some cagr =>
          match g0 with
          | some r => some ((r + cagr) / 2)
          | none => some cagr
      | none => g0
    else g0
  { free_cash_flow := fcf1
    earnings := earnings1
    book_value := book
    revenue := st.info_totalRevenue
    growth_rate := some (g1.getD defaultGrowthRate)
    is_financial := is_financial
    confidence := conf3 }

/-- `DCFModel.get_wacc` (lines 254-293): base rate 8%, beta-scaled risk
premium (4.5% for financials, 4% otherwise) clamped to [7%, 16%]; without a
positive beta, `default_wacc` (+1% for financials). -/
def get_wacc (beta : Option ℚ) (is_financial : Bool) : ℚ :=
  match beta with
  | some b =>
      if 0 < b then
        let risk_premium : ℚ := if is_financial then 45/1000 else 4/100
        min (max (8/100 + (b - 1) * risk_premium) (7/100)) (16/100)
      else if is_financial then defaultWacc + 1/100 else defaultWacc
  | none => if is_financial then defaultWacc + 1/100 else defaultWacc

/-- The net-cash adjustment of lines 465-469: `totalCash - totalDebt` when
both keys are present, else 0. -/
def net_cash (info : TickerInfo) : ℚ :=
  match info.totalCash, info.totalDebt with
  | some c, some d => c - d
  | _, _ => 0

/-- The arithmetic of `calculate_fcf_based_value`, lines 443-472 of the
source: project `fcf` for `n` years at growth `g`, perpetuity terminal value
at `tg` against discount rate `wacc`, discount everything, and add the
net-cash adjustment `nc`. This is the equity value of line 472. -/
def fcf_dcf_core (fcf g wacc tg : ℚ) (n : ℕ) (nc : ℚ) : ℚ :=
  let projected_cash_flows := (List.range' 1 n).map (fun year => fcf * (1 + g) ^ year)
  let terminal_value := projected_cash_flows.getLastD 0 * (1 + tg) / (wacc - tg)
  let present_values :=
    ((List.range' 1 n).zip projected_cash_flows).map (fun yc => yc.2 / (1 + wacc) ^ yc.1)
  let terminal_pv := terminal_value / (1 + wacc) ^ n
  present_values.sum + terminal_pv + nc

/-- `DCFModel.calculate_fcf_based_value` (lines 418-481). Returns `none`
where the source returns `None`, including where a Python exception is
caught by the enclosing handler: `IndexError` on `projected_cash_flows[-1]`
when `growth_years = 0`, `ZeroDivisionError` when `wacc = terminal_growth`
or `wacc = -1` or the share count is zero, `TypeError` when the share count
is missing. -/
def calculate_fcf_based_value (info : TickerInfo) (fd : FinData) (p : Params) :
    Option ℚ :=
  match fd.free_cash_flow with
  | none => none
  | some fcf =>
    if fcf ≤ 0 then none
    else
      let growth_rate := pyOr fd.growth_rate p.default_growth_rate
      let wacc := get_wacc info.beta info.is_financial
      let terminal_growth := p.default_terminal_growth
      if p.growth_years = 0 ∨ wacc - terminal_growth = 0 ∨ (1 : ℚ) + wacc = 0 then none
      else
        let equity_value :=
          fcf_dcf_core fcf growth_rate wacc terminal_growth p.growth_years (net_cash info)
        match info.sharesOutstanding with
        | none => none
        | some s => if s = 0 then none else some (equity_value / s)

/-- `DCFModel.calculate_earnings_based_value` (lines 483-540): projects
earnings at `wacc + 1%`, terminal value via a fixed P/E (10 for financials,
12 otherwise), no net-cash adjustment. -/
def calculate_earnings_based_value (info : TickerInfo) (fd : FinData) (p : Params) :
    Option ℚ :=
  match fd.earnings with
  | none => none
  | some earnings =>
    if earnings ≤ 0 then none
    else
      let growth_rate := pyOr fd.growth_rate p.default_growth_rate
      let wacc := get_wacc info.beta info.is_financial + 1/100
      if p.growth_years = 0 ∨ (1 : ℚ) + wacc = 0 then none
      else
        let projected_earnings :=
          (List.range' 1 p.growth_years).map (fun year => earnings * (1 + growth_rate) ^ year)
        let terminal_pe : ℚ := if fd.is_financial then 10 else 12
        let terminal_value := projected_earnings.getLastD 0 * terminal_pe
        let present_values :=
          ((List.range' 1 p.growth_years).zip projected_earnings).map
            (fun yc => yc.2 / (1 + wacc) ^ yc.1)
        let terminal_pv := terminal_value / (1 + wacc) ^ p.growth_years
        let equity_value := present_values.sum + terminal_pv
        match info.sharesOutstanding with
        | none => none
        | some s => if s = 0 then none else some (equity_value / s)

/-- `DCFModel.calculate_ptb_value` (lines 542-590): book value per share
times an ROE-tiered multiple. -/
def calculate_ptb_value (info : TickerInfo) (fd : FinData) (_p : Params) : Option ℚ :=
  match fd.book_value with
  | none => none
  | some book_value =>
    if book_value ≤ 0 then none
    else
      let ptb_multiple : ℚ :=
        match info.returnOnEquity with
        | some roe =>
            if 1/5 < roe then 2
            else if 3/20 < roe then 17/10
            else if 1/10 < roe then 7/5
            else if 1/20 < roe then 1
            else 4/5
        | none => 1
      match info.sharesOutstanding with
      | none => none
      | some s => if s = 0 then none else some (book_value / s * ptb_multiple)

/-- Python truthiness conjoined with positivity:
`financial_data['earnings'] and financial_data['earnings'] > 0` (line 351). -/
def truthyPos : Option ℚ → Bool
  | none => false
  | some v => (v != 0) && (0 < v)

/-- The method selector of lines 345-362: financial companies and companies
with missing or non-positive FCF go to the earnings branch (falling back to
price-to-book); everyone else goes to the FCF-based DCF. The `String` is
`calculation_method`, initialised to `"DCF"` at line 346. -/
def select_fair_value (info : TickerInfo) (fd : FinData) (p : Params) :
    Option ℚ × String :=
  if fd.is_financial ||
      (match fd.free_cash_flow with | none => true | some f => f ≤ 0) then
    if truthyPos fd.earnings then
      (calculate_earnings_based_value info fd p, "Earnings-Based")
    else if truthyPos fd.book_value then
      (calculate_ptb_value info fd p, "Price-to-Book")
    else (none, "DCF")
  else
    (calculate_fcf_based_value info fd p, "FCF-Based DCF")

/-- The last-resort P/E-multiple fallback of lines 364-371: fires only when
no method produced a value and a positive trailing EPS is available. -/
def apply_pe_fallback (info : TickerInfo) (r : Option ℚ × String) : Option ℚ × String :=
  match r.1, info.trailingEps with
  | none, some eps => if 0 < eps then (some (eps * 15), "P/E Multiple") else r
  | _, _ => r

/-- Selector plus fallback: the raw method output `fair_value` and
`calculation_method` just before the discount clamp (state at line 383). -/
def raw_valuation (info : TickerInfo) (fd : FinData) (p : Params) : Option ℚ × String :=
  apply_pe_fallback info (select_fair_value info fd p)

/-- The per-company result dict. Keys a branch of the source does not set
are `none` here (e.g. the failure dicts carry no price or discount). -/
structure DCFResult where
  ticker : String
  company : Option String
  fair_value : Option ℚ
  current_price : Option ℚ
  discount_percent : Option ℚ
  calculation_method : String
  error : Option String
deriving Repr, DecidableEq

/-- The per-company valuation from the point where `info` has been fetched:
guard on price and shares (lines 331-339), method selection, P/E fallback,
failure record (lines 373-381), discount clamp and assembly (lines 383-407).
Takes the `FinData` bundle as an argument; the full pipeline including the
extractor is `calculate_dcf`. -/
def calculate_dcf_with (t : String) (info : TickerInfo) (fd : FinData) (p : Params) :
    DCFResult :=
  let company := info.shortName.getD t
  if !truthy info.currentPrice || !truthy info.sharesOutstanding then
    { ticker := t, company := some company, fair_value := none, current_price := none,
      discount_percent := none, calculation_method := "failed",
      error := some "Missing price or shares outstanding data" }
  else
    match raw_valuation info fd p with
    | (none, _) =>
      { ticker := t, company := some company, fair_value := none, current_price := none,
        discount_percent := none, calculation_method := "failed",
        error := some "Insufficient data for valuation" }
    | (some v, m) =>
      let price := info.currentPrice.getD 0
      let discount_percent := (v / price - 1) * 100
      if 300 < discount_percent then
        { ticker := t, company := some company,
          fair_value := some (price * (1 + 300/100)), current_price := some price,
          discount_percent := some 300, calculation_method := m, error := none }
      else if discount_percent < -80 then
        { ticker := t, company := some company,
          fair_value := some (price * (1 + (-80)/100)), current_price := some price,
          discount_percent := some (-80), calculation_method := m, error := none }
      else
        { ticker := t, company := some company,
          fair_value := some v, current_price := some price,
          discount_percent := some discount_percent, calculation_method := m,
          error := none }

/-- One company's fetched data: summary info plus statement tables. -/
structure TickerData where
  info : TickerInfo
  statements : RawStatements
deriving Repr, DecidableEq

/-- `DCFModel.calculate_dcf` (lines 295-416) against an environment mapping a
symbol to its fetched data; `none` models a fetch failure (lines 316-323). -/
def calculate_dcf (rt : ℚ → ℕ → ℚ) (env : String → Option TickerData) (t : String)
    (p : Params) : DCFResult :=
  match env t with
  | none =>
    { ticker := t, company := none, fair_value := none, current_price := none,
      discount_percent := none, calculation_method := "failed",
      error := some "Failed to fetch stock data" }
  | some td =>
    calculate_dcf_with t td.info
      (get_financial_data rt td.info.is_financial td.statements) p

/-- `DCFModel.generate_dcf_report` (lines 592-631), modelled as the list of
result rows it writes to the spreadsheet: a per-ticker result is appended
only when its `fair_value` is not `None` (lines 606-609); when no result
survives, no report is produced (lines 613-615, returns `None`). -/
def generate_dcf_report (rt : ℚ → ℕ → ℚ) (env : String → Option TickerData)
    (tickers : List String) (p : Params) : Option (List DCFResult) :=
  let results := tickers.filterMap (fun t =>
    let r := calculate_dcf rt env t p
    if r.fair_value.isSome then some r else none)
  if results.isEmpty then none else some results

/-! ## Concrete sample inputs used by witnesses and counterexamples -/

/-- A trivial stand-in for the floating-point root operation; the theorems
that use it do not exercise the CAGR path, so its value is irrelevant. -/
def rtId : ℚ → ℕ → ℚ := fun x _ => x

/-- A `TickerInfo` with every summary field absent, non-financial. -/
def baseInfo : TickerInfo :=
  { shortName := none, currentPrice := none, sharesOutstanding := none, beta := none,
    trailingEps := none, totalCash := none, totalDebt := none, returnOnEquity := none,
    is_financial := false }

/-- Statements with every frame invalid/absent. -/
def baseSt : RawStatements :=
  { cashflow_ok := false, fcf_row := none, income_ok := false, netIncome_row := none,
    netIncomeCommon_row := none, balance_ok := false, totalStockholderEquity_row := none,
    stockholdersEquity_row := none, commonStockEquity_row := none,
    info_freeCashflow := none, info_netIncomeToCommon := none,
    info_totalRevenue := none, info_revenueGrowth := none }

/-- A fundamentals bundle with every signal absent. -/
def baseFd : FinData :=
  { free_cash_flow := none, earnings := none, book_value := none, revenue := none,
    growth_rate := none, is_financial := false, confidence := 0 }

/-! ## Helper lemmas -/

/-- `get_wacc` always lands in `[0.07, 0.16]` (shared workhorse). -/
theorem get_wacc_mem (beta : Option ℚ) (fin : Bool) :
    7/100 ≤ get_wacc beta fin ∧ get_wacc beta fin ≤ 16/100 := by
  have hclamp : ∀ x : ℚ, 7/100 ≤ min (max x (7/100)) (16/100) ∧
      min (max x (7/100)) (16/100) ≤ 16/100 :=
    fun x => ⟨le_min (le_max_right _ _) (by norm_num), min_le_right _ _⟩
  rcases beta with _ | b
  · cases fin <;> constructor <;> norm_num [get_wacc, defaultWacc]
  · by_cases hb : (0 : ℚ) < b
    · have he : get_wacc (some b) fin =
          min (max (8/100 + (b - 1) * (if fin then (45/1000 : ℚ) else 4/100)) (7/100))
            (16/100) := by
        simp only [get_wacc, if_pos hb]
      rw [he]
      exact hclamp _
    · cases fin <;> constructor <;> norm_num [get_wacc, defaultWacc, hb]

/-- Positivity of the base rate: `1 + get_wacc ... ≠ 0`. -/
theorem one_add_get_wacc_ne (beta : Option ℚ) (fin : Bool) :
    (1 : ℚ) + get_wacc beta fin ≠ 0 := by
  have h := (get_wacc_mem beta fin).1
  intro h0
  nlinarith

/-- Every result record built by `calculate_dcf_with` carries the requested
ticker symbol. -/
theorem calculate_dcf_with_ticker (t : String) (info : TickerInfo) (fd : FinData)
    (p : Params) : (calculate_dcf_with t info fd p).ticker = t := by
  unfold calculate_dcf_with
  generalize raw_valuation info fd p = r
  split
  · rfl
  · obtain ⟨_ | v, m⟩ := r
    · rfl
    · dsimp only
      split
      · rfl
      · split <;> rfl

/-- Every result record built by `calculate_dcf` carries the requested
ticker symbol. -/
theorem calculate_dcf_ticker (rt : ℚ → ℕ → ℚ) (env : String → Option TickerData)
    (t : String) (p : Params) : (calculate_dcf rt env t p).ticker = t := by
  unfold calculate_dcf
  split
  · rfl
  · exact calculate_dcf_with_ticker ..

/-- Truthiness characterisation: a present, non-zero value. -/
theorem truthy_iff (x : Option ℚ) : truthy x = true ↔ ∃ v, x = some v ∧ v ≠ 0 := by
  cases x <;> simp [truthy]

/-- When the price/shares guard fires, `calculate_dcf_with` returns the fixed
missing-data failure record. -/
theorem guard_fail (t : String) (info : TickerInfo) (fd : FinData) (p : Params)
    (h : (!truthy info.currentPrice || !truthy info.sharesOutstanding) = true) :
    calculate_dcf_with t info fd p =
      { ticker := t, company := some (info.shortName.getD t), fair_value := none,
        current_price := none, discount_percent := none, calculation_method := "failed",
        error := some "Missing price or shares outstanding data" } := by
  unfold calculate_dcf_with
  rw [if_pos h]

/-! ## Claim theorems -/

/-- Claim C9 (confirmed): for every `(beta, is_financial)` input — beta
present with any value, beta non-positive, or beta absent — the
discount-rate estimator returns a value in `[0.07, 0.16]`: the beta branch
clamps to that interval, and the beta-absent defaults (`0.095`, or `0.105`
for financials) already lie inside it. -/
theorem C9_get_wacc_bounded :
    (∀ beta fin, 7/100 ≤ get_wacc beta fin ∧ get_wacc beta fin ≤ 16/100)
    ∧ get_wacc none false = 95/1000 ∧ get_wacc none true = 105/1000 :=
  ⟨get_wacc_mem, by norm_num [get_wacc, defaultWacc], by norm_num [get_wacc, defaultWacc]⟩

/-- Claim C8 (confirmed): when `current_price` or `shares_outstanding` is
absent, the whole per-company valuation fails before any method is tried:
method `"failed"`, no fair value, and the fixed error string, regardless of
the other financial fields. -/
theorem C8_missing_price_or_shares (t : String) (info : TickerInfo) (fd : FinData)
    (p : Params) (h : info.currentPrice = none ∨ info.sharesOutstanding = none) :
    calculate_dcf_with t info fd p =
      { ticker := t, company := some (info.shortName.getD t), fair_value := none,
        current_price := none, discount_percent := none, calculation_method := "failed",
        error := some "Missing price or shares outstanding data" } := by
  apply guard_fail
  rcases h with h | h <;> rw [h] <;> simp [truthy]

/-- Claim C8 witness: a concrete company with no price (and otherwise empty
fields) yields exactly the missing-data failure record. -/
theorem C8_missing_price_or_shares_witness :
    calculate_dcf_with "TST" baseInfo baseFd defaultParams =
      { ticker := "TST", company := some "TST", fair_value := none,
        current_price := none, discount_percent := none, calculation_method := "failed",
        error := some "Missing price or shares outstanding data" } :=
  C8_missing_price_or_shares "TST" baseInfo baseFd defaultParams (Or.inl rfl)

/-- Claim C10 (confirmed): a `current_price` of 0 or a `shares_outstanding`
of 0 behaves exactly like an absent value at the valuation entry point (the
check is on falsiness, not only on `None`): the same missing-data failure
record results, and whenever the result is not `"failed"` both the price
and the share count are present and non-zero, so the later divisions by
them are divisions by non-zero numbers. -/
theorem C10_zero_is_missing (t : String) (info : TickerInfo) (fd : FinData) (p : Params) :
    (calculate_dcf_with t { info with currentPrice := some 0 } fd p
      = calculate_dcf_with t { info with currentPrice := none } fd p)
    ∧ (calculate_dcf_with t { info with sharesOutstanding := some 0 } fd p
      = calculate_dcf_with t { info with sharesOutstanding := none } fd p)
    ∧ ((info.currentPrice = some 0 ∨ info.sharesOutstanding = some 0) →
        calculate_dcf_with t info fd p =
          { ticker := t, company := some (info.shortName.getD t), fair_value := none,
            current_price := none, discount_percent := none,
            calculation_method := "failed",
            error := some "Missing price or shares outstanding data" })
    ∧ ((calculate_dcf_with t info fd p).calculation_method ≠ "failed" →
        (∃ pr, info.currentPrice = some pr ∧ pr ≠ 0)
        ∧ (∃ s, info.sharesOutstanding = some s ∧ s ≠ 0)) := by
  refine ⟨?_, ?_, ?_, ?_⟩
  · rw [guard_fail _ _ _ _ (by simp [truthy]), guard_fail _ _ _ _ (by simp [truthy])]
  · rw [guard_fail _ _ _ _ (by simp [truthy]), guard_fail _ _ _ _ (by simp [truthy])]
  · intro h
    apply guard_fail
    rcases h with h | h <;> rw [h] <;> simp [truthy]
  · intro hm
    by_cases hg : (!truthy info.currentPrice || !truthy info.sharesOutstanding) = true
    · rw [guard_fail t info fd p hg] at hm
      exact absurd rfl hm
    · have hb : truthy info.currentPrice = true ∧ truthy info.sharesOutstanding = true := by
        constructor <;> by_contra hx <;>
          simp [Bool.not_eq_true] at hx <;> simp [hx] at hg
      exact ⟨(truthy_iff _).mp hb.1, (truthy_iff _).mp hb.2⟩

/-- Claim C1 (confirmed): a non-financial company whose extracted FCF is
present and strictly positive is dispatched to the cash-flow method — the
selector's result is exactly the FCF-based value with method label
`"FCF-Based DCF"`, whatever the earnings and book-value fields hold — and,
conversely, the earnings/price-to-book branch is taken only when the
company is financial or the FCF is `None` or `≤ 0`. -/
theorem C1_selector_exclusive (info : TickerInfo) (fd : FinData) (p : Params)
    (hnf : fd.is_financial = false) (f : ℚ) (hf : fd.free_cash_flow = some f)
    (hpos : 0 < f) :
    select_fair_value info fd p = (calculate_fcf_based_value info fd p, "FCF-Based DCF")
    ∧ ∀ (info2 : TickerInfo) (fd2 : FinData) (p2 : Params),
        ((select_fair_value info2 fd2 p2).2 = "Earnings-Based"
          ∨ (select_fair_value info2 fd2 p2).2 = "Price-to-Book") →
        (fd2.is_financial = true ∨ fd2.free_cash_flow = none
          ∨ ∃ g, fd2.free_cash_flow = some g ∧ g ≤ 0) := by
  constructor
  · unfold select_fair_value
    rw [hnf, hf]
    simp [hpos.not_le]
  · intro info2 fd2 p2 h
    by_cases hc : (fd2.is_financial ||
        (match fd2.free_cash_flow with | none => true | some g => decide (g ≤ 0))) = true
    · rcases Bool.or_eq_true_iff.mp hc with hfin | hm
      · exact Or.inl hfin
      · rcases hg : fd2.free_cash_flow with _ | g
        · exact Or.inr (Or.inl rfl)
        · rw [hg] at hm
          exact Or.inr (Or.inr ⟨g, rfl, of_decide_eq_true hm⟩)
    · exfalso
      rw [Bool.not_eq_true] at hc
      unfold select_fair_value at h
      rw [hc] at h
      rcases h with h | h <;> simp at h

/-- Claim C1 inputs: non-financial, FCF 1000, earnings 2000, book value 500. -/
def fdC1 : FinData :=
  { baseFd with
    free_cash_flow := some 1000
    earnings := some 2000
    book_value := some 500 }

/-- Claim C1 witness: with FCF 1000 and earnings 2000 both positive, the
selector still picks the cash-flow method. -/
theorem C1_selector_exclusive_witness :
    select_fair_value baseInfo fdC1 defaultParams
      = (calculate_fcf_based_value baseInfo fdC1 defaultParams, "FCF-Based DCF") :=
  (C1_selector_exclusive baseInfo fdC1 defaultParams rfl 1000 rfl (by norm_num)).1

/-- When the guard passes and the raw valuation produced a value, the
result is the clamped assembly of lines 383-407. -/
theorem calculate_dcf_with_success (t : String) (info : TickerInfo) (fd : FinData)
    (p : Params) (pr v : ℚ) (m : String) (hp : info.currentPrice = some pr)
    (hpr : pr ≠ 0) (hs : truthy info.sharesOutstanding = true)
    (hv : raw_valuation info fd p = (some v, m)) :
    calculate_dcf_with t info fd p =
      if 300 < (v / pr - 1) * 100 then
        { ticker := t, company := some (info.shortName.getD t),
          fair_value := some (pr * (1 + 300/100)), current_price := some pr,
          discount_percent := some 300, calculation_method := m, error := none }
      else if (v / pr - 1) * 100 < -80 then
        { ticker := t, company := some (info.shortName.getD t),
          fair_value := some (pr * (1 + (-80)/100)), current_price := some pr,
          discount_percent := some (-80), calculation_method := m, error := none }
      else
        { ticker := t, company := some (info.shortName.getD t),
          fair_value := some v, current_price := some pr,
          discount_percent := some ((v / pr - 1) * 100), calculation_method := m,
          error := none } := by
  have hg : (!truthy info.currentPrice || !truthy info.sharesOutstanding) = false := by
    rw [hp, hs]
    simp [truthy, hpr]
  unfold calculate_dcf_with
  rw [hg, hv, hp]
  simp only [Bool.false_eq_true, if_false, Option.getD_some]

/-- Claim C2 (confirmed): for a successful valuation with price `pr > 0`
and raw method output `v`, the assembled result satisfies the clamp policy:
raw discount above 300 caps fair value at `4 × price` and the discount at
300; below −80 caps at `price / 5` and −80; otherwise the raw value and raw
discount are returned — and the returned discount always lies in
`[-80, 300]`. -/
theorem C2_discount_clamp (t : String) (info : TickerInfo) (fd : FinData) (p : Params)
    (pr v : ℚ) (m : String) (hp : info.currentPrice = some pr) (hppos : 0 < pr)
    (hs : truthy info.sharesOutstanding = true)
    (hv : raw_valuation info fd p = (some v, m)) :
    (300 < (v / pr - 1) * 100 →
      (calculate_dcf_with t info fd p).fair_value = some (pr * 4)
      ∧ (calculate_dcf_with t info fd p).discount_percent = some 300)
    ∧ ((v / pr - 1) * 100 < -80 →
      (calculate_dcf_with t info fd p).fair_value = some (pr * (1/5))
      ∧ (calculate_dcf_with t info fd p).discount_percent = some (-80))
    ∧ (-80 ≤ (v / pr - 1) * 100 → (v / pr - 1) * 100 ≤ 300 →
      (calculate_dcf_with t info fd p).fair_value = some v
      ∧ (calculate_dcf_with t info fd p).discount_percent
          = some ((v / pr - 1) * 100))
    ∧ (∀ d, (calculate_dcf_with t info fd p).discount_percent = some d →
        -80 ≤ d ∧ d ≤ 300) := by
  have he := calculate_dcf_with_success t info fd p pr v m hp hppos.ne' hs hv
  rw [he]
  refine ⟨?_, ?_, ?_, ?_⟩
  · intro h
    rw [if_pos h]
    refine ⟨?_, rfl⟩
    norm_num
  · intro h
    rw [if_neg (by linarith), if_pos h]
    refine ⟨?_, rfl⟩
    norm_num
  · intro h80 h300
    rw [if_neg (not_lt.mpr h300), if_neg (not_lt.mpr h80)]
    exact ⟨rfl, rfl⟩
  · intro d hd
    split_ifs at hd with h1 h2 <;> simp only [Option.some.injEq] at hd <;> subst hd
    · norm_num
    · norm_num
    · exact ⟨le_of_not_lt h2, le_of_not_lt h1⟩

/-- Claim C2 inputs: price 100, shares 10, trailing EPS 5 — the P/E fallback
yields raw fair value 75, a raw discount of −25%, inside the clamp band. -/
def infoC2 : TickerInfo :=
  { baseInfo with
    currentPrice := some 100
    sharesOutstanding := some 10
    trailingEps := some 5 }

/-- Claim C2 witness: at raw discount −25% the raw value is passed through. -/
theorem C2_discount_clamp_witness :
    (calculate_dcf_with "T2" infoC2 baseFd defaultParams).fair_value = some 75
    ∧ (calculate_dcf_with "T2" infoC2 baseFd defaultParams).discount_percent
        = some (((75 : ℚ) / 100 - 1) * 100) :=
  (C2_discount_clamp "T2" infoC2 baseFd defaultParams 100 75 "P/E Multiple" rfl
      (by norm_num) rfl (by with_unfolding_all rfl)).2.2.1
    (by norm_num) (by norm_num)

/-- Zipping a list with its own image is mapping to pairs. -/
theorem zip_map_self (l : List ℕ) (F : ℕ → ℚ) :
    l.zip (l.map F) = l.map (fun a => (a, F a)) := by
  induction l with
  | nil => rfl
  | cons a t ih => simp [ih]

/-- Evaluation of `calculate_fcf_based_value` in the regular case: positive
FCF, shares present and non-zero, a positive horizon and a non-degenerate
terminal denominator give the discounted equity value per share. -/
theorem calculate_fcf_value_some (info : TickerInfo) (fd : FinData) (p : Params)
    (f s : ℚ) (hf : fd.free_cash_flow = some f) (hfpos : 0 < f)
    (hs : info.sharesOutstanding = some s) (hs0 : s ≠ 0) (hy : p.growth_years ≠ 0)
    (hwt : get_wacc info.beta info.is_financial - p.default_terminal_growth ≠ 0) :
    calculate_fcf_based_value info fd p =
      some (fcf_dcf_core f (pyOr fd.growth_rate p.default_growth_rate)
        (get_wacc info.beta info.is_financial) p.default_terminal_growth
        p.growth_years (net_cash info) / s) := by
  simp [calculate_fcf_based_value, hf, hs, hfpos.not_le, hy, hwt, hs0,
    one_add_get_wacc_ne info.beta info.is_financial]

/-- Positivity of the discounted equity value when every rate is above −100%,
the discount rate strictly exceeds the terminal growth, the horizon is
non-empty and the net-cash adjustment is non-negative. -/
theorem fcf_dcf_core_pos (fcf g w tg : ℚ) (n : ℕ) (nc : ℚ)
    (hf : 0 < fcf) (hg : (0:ℚ) < 1 + g) (hw : (0:ℚ) < 1 + w) (htg : (0:ℚ) < 1 + tg)
    (hwt : tg < w) (hn : n ≠ 0) (hnc : 0 ≤ nc) :
    0 < fcf_dcf_core fcf g w tg n nc := by
  have hwt' : (0:ℚ) < w - tg := by linarith
  have hproj : ∀ y : ℕ, 0 < fcf * (1 + g) ^ y := fun y => mul_pos hf (pow_pos hg y)
  have hsum : 0 < (((List.range' 1 n).zip
      ((List.range' 1 n).map (fun year => fcf * (1 + g) ^ year))).map
      (fun yc => yc.2 / (1 + w) ^ yc.1)).sum := by
    rw [zip_map_self, List.map_map]
    apply List.sum_pos
    · intro x hx
      obtain ⟨y, hy, rfl⟩ := List.mem_map.mp hx
      exact div_pos (hproj y) (pow_pos hw y)
    · simp only [ne_eq, List.map_eq_nil_iff, List.range'_eq_nil]
      exact hn
  have hlast : 0 < ((List.range' 1 n).map (fun year => fcf * (1 + g) ^ year)).getLastD 0 := by
    obtain ⟨m, rfl⟩ := Nat.exists_eq_succ_of_ne_zero hn
    rw [List.range'_concat, List.map_append]
    simp only [List.map_cons, List.map_nil]
    rw [List.getLastD_concat]
    exact hproj _
  have htv : 0 < ((List.range' 1 n).map (fun year => fcf * (1 + g) ^ year)).getLastD 0
      * (1 + tg) / (w - tg) / (1 + w) ^ n :=
    div_pos (div_pos (mul_pos hlast htg) hwt') (pow_pos hw n)
  simp only [fcf_dcf_core]
  linarith

/-- Claim C4 (corrected): the source has no `discount_rate > terminal_growth`
guard. When the discount rate equals the terminal growth, the zero-division
raises and the handler returns `None` — a calculation failure, not a crash.
But when the discount rate is strictly below the terminal growth the method
does not fail: it proceeds with a negative denominator and returns a value
(possibly a negative one). -/
theorem C4_terminal_guard_amended (info : TickerInfo) (fd : FinData) (p : Params) :
    (get_wacc info.beta info.is_financial = p.default_terminal_growth →
      calculate_fcf_based_value info fd p = none)
    ∧ (∀ f s : ℚ, fd.free_cash_flow = some f → 0 < f →
        info.sharesOutstanding = some s → s ≠ 0 → p.growth_years ≠ 0 →
        get_wacc info.beta info.is_financial < p.default_terminal_growth →
        calculate_fcf_based_value info fd p ≠ none) := by
  constructor
  · intro h
    have hsub : get_wacc info.beta info.is_financial - p.default_terminal_growth = 0 := by
      rw [h]; ring
    rcases hfcf : fd.free_cash_flow with _ | f
    · simp [calculate_fcf_based_value, hfcf]
    · by_cases hle : f ≤ 0
      · simp [calculate_fcf_based_value, hfcf, hle]
      · simp [calculate_fcf_based_value, hfcf, hle, hsub]
  · intro f s hf hfpos hs hs0 hy hlt
    rw [calculate_fcf_value_some info fd p f s hf hfpos hs hs0 hy
      (sub_ne_zero.mpr hlt.ne)]
    exact Option.some_ne_none _

/-- Claim C4 parameters: custom terminal growth 0.12, above the default
discount rate 0.095. -/
def p4 : Params :=
  { growth_years := 5, default_growth_rate := 3/100, default_terminal_growth := 12/100 }

/-- Claim C4 company: one share outstanding, no beta, non-financial. -/
def info4 : TickerInfo := { baseInfo with sharesOutstanding := some 1 }

/-- Claim C4 fundamentals: FCF 100, no growth estimate. -/
def fd4 : FinData := { baseFd with free_cash_flow := some 100 }

/-- Claim C4 counterexample: with the discount rate 0.095 strictly below the
terminal growth 0.12, the cash-flow method does NOT treat the valuation as a
failure — it returns a (negative) value, so no strict-positivity guard on
the denominator exists. -/
theorem C4_terminal_guard_cex :
    get_wacc info4.beta info4.is_financial < p4.default_terminal_growth
    ∧ calculate_fcf_based_value info4 fd4 p4 ≠ none
    ∧ (calculate_fcf_based_value info4 fd4 p4).getD 0 < 0 := by
  with_unfolding_all decide

/-- Claim C5 (corrected, amended): under the claim's hypotheses
(`discount_rate > terminal_growth`, FCF > 0, shares known) strengthened by
what the counterexample forces — positive share count, growth factors above
−100%, a non-empty horizon, and a non-negative net-cash adjustment — the
cash-flow method returns a strictly positive fair value per share (finite
by construction in exact arithmetic). -/
theorem C5_fcf_positive_amended (info : TickerInfo) (fd : FinData) (p : Params)
    (f s : ℚ) (hf : fd.free_cash_flow = some f) (hfpos : 0 < f)
    (hs : info.sharesOutstanding = some s) (hspos : 0 < s)
    (hy : p.growth_years ≠ 0)
    (hg : (-1 : ℚ) < pyOr fd.growth_rate p.default_growth_rate)
    (htg : (-1 : ℚ) < p.default_terminal_growth)
    (hwt : p.default_terminal_growth < get_wacc info.beta info.is_financial)
    (hnc : 0 ≤ net_cash info) :
    ∃ v, calculate_fcf_based_value info fd p = some v ∧ 0 < v := by
  have h1w : (0:ℚ) < 1 + get_wacc info.beta info.is_financial := by
    have := (get_wacc_mem info.beta info.is_financial).1
    linarith
  refine ⟨_, calculate_fcf_value_some info fd p f s hf hfpos hs hspos.ne' hy
    (sub_ne_zero.mpr hwt.ne'), ?_⟩
  exact div_pos
    (fcf_dcf_core_pos _ _ _ _ _ _ hfpos (by linarith) h1w (by linarith) hwt hy hnc) hspos

/-- Claim C5 well-behaved company: 10 shares, no beta, no cash/debt data. -/
def info5w : TickerInfo := { baseInfo with sharesOutstanding := some 10 }

/-- Claim C5 fundamentals: FCF 100, no growth estimate. -/
def fd5w : FinData := { baseFd with free_cash_flow := some 100 }

/-- Claim C5 witness: the amended statement at a concrete benign company. -/
theorem C5_fcf_positive_amended_witness :
    ∃ v, calculate_fcf_based_value info5w fd5w defaultParams = some v ∧ 0 < v :=
  C5_fcf_positive_amended info5w fd5w defaultParams 100 10 rfl (by norm_num) rfl
    (by norm_num) (by decide) (by norm_num [pyOr, baseFd, fd5w, defaultParams])
    (by norm_num [defaultParams])
    (by norm_num [defaultParams, get_wacc, defaultWacc, info5w, baseInfo])
    (by norm_num [net_cash, info5w, baseInfo])

/-- Claim C5 debt-laden company: one share, zero cash, huge debt. -/
def info5 : TickerInfo :=
  { baseInfo with
    sharesOutstanding := some 1
    totalCash := some 0
    totalDebt := some 10000000 }

/-- Claim C5 counterexample: discount rate 0.095 > terminal growth 0.025,
FCF 100 > 0 and shares known, yet the net-cash adjustment (−10,000,000)
drives the returned fair value strictly negative. -/
theorem C5_fcf_positive_cex :
    defaultParams.default_terminal_growth < get_wacc info5.beta info5.is_financial
    ∧ calculate_fcf_based_value info5 fd5w defaultParams ≠ none
    ∧ (calculate_fcf_based_value info5 fd5w defaultParams).getD 0 < 0 := by
  with_unfolding_all decide

/-- Claim C6 (corrected): the income-statement net-income lookup runs iff
the cash-flow frame is valid AND (the company is financial OR the extracted
FCF is null OR the extracted FCF is strictly negative, `< 0` — not `≤ 0`):
when it runs and a row is found, earnings are set with confidence 0.8; a
free cash flow of exactly 0 at a non-financial company does NOT trigger the
lookup and leaves earnings unset. -/
theorem C6_income_lookup_amended (rt : ℚ → ℕ → ℚ) (fin : Bool) (st : RawStatements)
    (e : ℚ) (hcf : st.cashflow_ok = true) :
    ((fin = true ∨ extractedFcf st = none ∨ (∃ f, extractedFcf st = some f ∧ f < 0)) →
      incomeLookup st = some e →
      (get_financial_data rt fin st).earnings = some e
      ∧ (get_financial_data rt fin st).confidence = 8/10)
    ∧ (fin = false → extractedFcf st = some 0 →
      (get_financial_data rt fin st).earnings = none) := by
  constructor
  · intro hcond he
    have hb : incomeBranch fin st = true := by
      unfold incomeBranch
      rw [hcf]
      rcases hcond with h | h | ⟨f, hf, hneg⟩
      · rw [h]; simp
      · rw [h]; simp
      · rw [hf]; simp [hneg]
    constructor <;> simp [get_financial_data, hb, he]
  · intro hfin h0
    have hb : incomeBranch fin st = false := by
      unfold incomeBranch
      rw [hcf, hfin, h0]
      simp
    simp [get_financial_data, hb, h0]

/-- Claim C6 witness inputs: a financial company with a valid cash-flow
frame and net income 700 on the income statement. -/
def st6w : RawStatements :=
  { baseSt with
    cashflow_ok := true
    income_ok := true
    netIncome_row := some [700] }

/-- Claim C6 witness: for the financial company the lookup fires and sets
earnings 700 at confidence 0.8. -/
theorem C6_income_lookup_amended_witness :
    (get_financial_data rtId true st6w).earnings = some 700
    ∧ (get_financial_data rtId true st6w).confidence = 8/10 :=
  (C6_income_lookup_amended rtId true st6w 700 rfl).1 (Or.inl rfl) rfl

/-- Claim C6 counterexample inputs: non-financial, FCF exactly 0, and net
income 500 available on the income statement. -/
def st6 : RawStatements :=
  { baseSt with
    cashflow_ok := true
    fcf_row := some [0]
    income_ok := true
    netIncome_row := some [500] }

/-- Claim C6 counterexample: with FCF exactly 0 the claim predicts the
income lookup fires (earnings 500, confidence 0.8); the code leaves
earnings unset and confidence at 0.7, because its condition is `fcf < 0`,
not `fcf <= 0`. -/
theorem C6_zero_fcf_cex :
    extractedFcf st6 = some 0 ∧ st6.netIncome_row = some [500]
    ∧ (get_financial_data rtId false st6).earnings = none
    ∧ (get_financial_data rtId false st6).confidence = 7/10 := by
  with_unfolding_all decide

/-- Claim C7 failing input: non-financial, FCF 1000 (positive), an income
statement with three periods of positive net income (newest 400, oldest
100), and a summary revenue growth of 0.10. -/
def st7 : RawStatements :=
  { baseSt with
    cashflow_ok := true
    fcf_row := some [1000]
    income_ok := true
    netIncome_row := some [400, 300, 100]
    info_revenueGrowth := some (1/10) }

/-- Claim C7 (code bug): the earnings-CAGR step is NOT independent of the
financial/FCF branch. At this non-financial, positive-FCF company with a
3-period income history, the claim predicts the CAGR (clamped 0.20, since
the true root gives `(400/100) ^ (1/2) − 1 = 1`) averaged with the revenue
growth 0.10, i.e. growth 0.15; the code instead leaves growth at 0.10 for
EVERY possible root operation `rt`, because the `income_stmt` variable is
unbound when the income branch was skipped and the resulting `NameError`
is silently swallowed. -/
theorem C7_cagr_unreachable (rt : ℚ → ℕ → ℚ) :
    (get_financial_data rt false st7).free_cash_flow = some 1000
    ∧ st7.netIncome_row = some [400, 300, 100]
    ∧ (get_financial_data rt false st7).growth_rate = some (1/10) := by
  refine ⟨?_, rfl, ?_⟩ <;> with_unfolding_all rfl

/-- Claim C3 (corrected): the report rows are exactly the successfully
valued symbols, in order of request: every row has a non-null fair value
and originates from a requested symbol's valuation; a symbol whose
valuation failed has no row; every successfully valued symbol has a row;
and a produced report is never empty. -/
theorem C3_report_only_successes (rt : ℚ → ℕ → ℚ) (env : String → Option TickerData)
    (p : Params) (tickers : List String) (rows : List DCFResult)
    (h : generate_dcf_report rt env tickers p = some rows) :
    (∀ r ∈ rows, r.fair_value ≠ none)
    ∧ (∀ r ∈ rows, ∃ t ∈ tickers, r = calculate_dcf rt env t p)
    ∧ (∀ t ∈ tickers, (calculate_dcf rt env t p).fair_value = none →
        ∀ r ∈ rows, r.ticker ≠ t)
    ∧ (∀ t ∈ tickers, (calculate_dcf rt env t p).fair_value ≠ none →
        ∃ r ∈ rows, r.ticker = t)
    ∧ rows ≠ [] := by
  simp only [generate_dcf_report] at h
  split at h
  · exact absurd h (by simp)
  · rename_i hne
    have hrows : tickers.filterMap (fun t =>
        let r := calculate_dcf rt env t p
        if r.fair_value.isSome then some r else none) = rows :=
      Option.some.inj h
    have hmem : ∀ r : DCFResult, r ∈ rows ↔
        ∃ t ∈ tickers, (calculate_dcf rt env t p).fair_value.isSome
          ∧ calculate_dcf rt env t p = r := by
      intro r
      rw [← hrows, List.mem_filterMap]
      constructor
      · rintro ⟨t, ht, hft⟩
        dsimp only at hft
        by_cases hi : (calculate_dcf rt env t p).fair_value.isSome = true
        · rw [if_pos hi] at hft
          exact ⟨t, ht, hi, Option.some.inj hft⟩
        · rw [if_neg hi] at hft
          exact absurd hft (by simp)
      · rintro ⟨t, ht, hi, hr⟩
        exact ⟨t, ht, by dsimp only; rw [if_pos hi, hr]⟩
    refine ⟨?_, ?_, ?_, ?_, ?_⟩
    · intro r hr
      obtain ⟨t, _, hi, hr'⟩ := (hmem r).mp hr
      rw [← hr']
      exact Option.isSome_iff_ne_none.mp hi
    · intro r hr
      obtain ⟨t, ht, _, hr'⟩ := (hmem r).mp hr
      exact ⟨t, ht, hr'.symm⟩
    · intro t ht hnone r hr hticker
      obtain ⟨t2, _, hi, hr'⟩ := (hmem r).mp hr
      have ht2 : t2 = t := by
        rw [← hticker, ← hr', calculate_dcf_ticker]
      rw [ht2] at hi
      rw [Option.isSome_iff_ne_none] at hi
      exact hi hnone
    · intro t ht hsome
      refine ⟨calculate_dcf rt env t p, ?_, calculate_dcf_ticker ..⟩
      exact (hmem _).mpr ⟨t, ht, Option.isSome_iff_ne_none.mpr hsome, rfl⟩
    · intro hnil
      rw [hnil] at hrows
      exact hne (by rw [hrows]; rfl)

/-- Claim C3 environment, successful company: symbol `"A"` reuses the C2
company (price 100, 10 shares, trailing EPS 5 — valued 75 via the P/E
fallback). -/
def tdA : TickerData := { info := infoC2, statements := baseSt }

/-- Claim C3 environment, failing company: symbol `"X"` has shares but no
price, so its valuation fails on the missing-data guard. -/
def tdX : TickerData :=
  { info := { baseInfo with sharesOutstanding := some 10 }, statements := baseSt }

/-- Claim C3 environment over the symbols `"A"` and `"X"`. -/
def envW : String → Option TickerData :=
  fun t => if t = "A" then some tdA else if t = "X" then some tdX else none

/-- Claim C3 counterexample: symbol `"X"` is requested and its valuation
fails (missing price, fair value `None`), yet the produced report carries a
row only for `"A"`: the failed symbol appears in no row, against the
claim's one-record-per-requested-symbol reading. -/
theorem C3_report_drops_failed_cex :
    (calculate_dcf rtId envW "X" defaultParams).calculation_method = "failed"
    ∧ (calculate_dcf rtId envW "X" defaultParams).fair_value = none
    ∧ (generate_dcf_report rtId envW ["A", "X"] defaultParams).map
        (fun rows => rows.map (fun r => r.ticker)) = some ["A"] := by
  with_unfolding_all decide

/-- The single report row of the claim C3 witness environment. -/
def recA : DCFResult :=
  { ticker := "A", company := some "A", fair_value := some 75,
    current_price := some 100, discount_percent := some (-25),
    calculation_method := "P/E Multiple", error := none }

/-- Claim C3 witness: the amended statement at the concrete one-success
report. -/
theorem C3_report_only_successes_witness :
    (∀ r ∈ [recA], r.fair_value ≠ none)
    ∧ (∀ r ∈ [recA], ∃ t ∈ ["A"], r = calculate_dcf rtId envW t defaultParams)
    ∧ (∀ t ∈ ["A"], (calculate_dcf rtId envW t defaultParams).fair_value = none →
        ∀ r ∈ [recA], r.ticker ≠ t)
    ∧ (∀ t ∈ ["A"], (calculate_dcf rtId envW t defaultParams).fair_value ≠ none →
        ∃ r ∈ [recA], r.ticker = t)
    ∧ ([recA] : List DCFResult) ≠ [] :=
  C3_report_only_successes rtId envW defaultParams ["A"] [recA]
    (by with_unfolding_all decide)

end AexDCF
